import Mathlib

/-!
Verification of `src/event_sender.rs` from the maidsafe_utilities repository.

The repository provides a single producer-side primitive, `EventSender`:
a cloneable handle holding an mpsc sender for a payload channel, an
immutable category value, and a shared mpsc sender for a category channel.
Its sole operation `send` first delivers the event on the payload channel
and, only if that succeeded, publishes a clone of the stored category on
the category channel, surfacing each failure synchronously with the
rejected value inside the error.

Shallow embedding: an mpsc channel is a FIFO queue together with a flag
recording whether the receiving end is still alive (Rust's `Sender::send`
fails exactly when every `Receiver` has been dropped, returning
`SendError(value)` and leaving the channel unchanged).  A `Sender` handle
is a natural-number identifier into a world that maps identifiers to
channel states; `send` is explicit state passing on that world.
-/

/-- State of one mpsc channel: the queued values (FIFO, oldest first) and
whether the receiving end is still alive. -/
structure Channel (α : Type) where
  queue : List α
  receiver_alive : Bool
deriving Repr

/-- Rust's `std::sync::mpsc::SendError<T>`: wraps the value that could not
be delivered. -/
structure SendError (α : Type) where
  val : α
deriving Repr

/-- Errors that can be returned by EventSender, mirroring the Rust enum
`EventSenderError<Category, EventSubset>`. -/
inductive EventSenderError (Category EventSubset : Type) where
  /-- Error sending the event subset. -/
  | EventSendError : SendError EventSubset → EventSenderError Category EventSubset
  /-- Error sending the event category. -/
  | CategorySendError : SendError Category → EventSenderError Category EventSubset
deriving Repr

/-- Semantics of `Sender::send` on one channel: if the receiver is alive
the value is appended to the queue, otherwise the call fails returning the
value inside `SendError` and the channel is unchanged. -/
def mpscSend {α : Type} (ch : Channel α) (v : α) : Except (SendError α) (Channel α) :=
  if ch.receiver_alive then
    Except.ok { ch with queue := ch.queue ++ [v] }
  else
    Except.error ⟨v⟩

/-- Semantics of `Receiver::try_recv` on one channel: pop the oldest
queued value if any, without blocking. -/
def tryRecv {α : Type} (ch : Channel α) : Option α × Channel α :=
  match ch.queue with
  | [] => (none, ch)
  | x :: xs => (some x, { ch with queue := xs })

/-- Update a channel map at one identifier. -/
def updFn {α : Type} (f : Nat → α) (i : Nat) (v : α) : Nat → α :=
  fun j => if j = i then v else f j

/-- The world the dispatchers act on: all payload channels (of the event
subset type) and all category channels, addressed by identifiers.  A Rust
`Sender` handle is an identifier into the corresponding map; clones of a
handle carry the same identifier. -/
structure World (Category EventSubset : Type) where
  payload : Nat → Channel EventSubset
  category : Nat → Channel Category

/-- The dispatcher, mirroring the Rust struct `EventSender`: an owned
sender handle for the payload channel, the immutable bound category value,
and a shared sender handle for the category channel. -/
structure EventSender (Category EventSubset : Type) where
  event_tx : Nat
  event_category : Category
  event_category_tx : Nat
deriving Repr

namespace EventSender

variable {Category EventSubset : Type}

/-- Mirrors `EventSender::new`: stores the three inputs unchanged, with no
validation and no effect on any channel. -/
def new (event_tx : Nat) (event_category : Category) (event_category_tx : Nat) :
    EventSender Category EventSubset :=
  { event_tx := event_tx
    event_category := event_category
    event_category_tx := event_category_tx }

/-- Mirrors `#[derive(Clone)]` on `EventSender`: each field is cloned; a
cloned `Sender` is a handle to the same channel (same identifier), and the
category value is duplicated by value. -/
def clone (s : EventSender Category EventSubset) : EventSender Category EventSubset :=
  { event_tx := s.event_tx
    event_category := s.event_category
    event_category_tx := s.event_category_tx }

/-- Mirrors `EventSender::send`: first send the event on the payload
channel, returning `EventSendError` at once if that fails (the world is
left as it was); then publish a clone of the stored category on the
category channel, returning `CategorySendError` if that fails (the payload
enqueue persists); otherwise return success. -/
def send (self : EventSender Category EventSubset) (event : EventSubset)
    (w : World Category EventSubset) :
    Except (EventSenderError Category EventSubset) Unit × World Category EventSubset :=
  match mpscSend (w.payload self.event_tx) event with
  | Except.error error => (Except.error (EventSenderError.EventSendError error), w)
  | Except.ok ch =>
    let w1 : World Category EventSubset := { w with payload := updFn w.payload self.event_tx ch }
    match mpscSend (w1.category self.event_category_tx) self.event_category with
    | Except.error error => (Except.error (EventSenderError.CategorySendError error), w1)
    | Except.ok ch2 => (Except.ok (), { w1 with category := updFn w1.category self.event_category_tx ch2 })

/-- The world as it stands between the two steps of `send`: the payload
enqueue (when it succeeds) has happened, the category publication has not
yet been attempted. -/
def sendMid (self : EventSender Category EventSubset) (event : EventSubset)
    (w : World Category EventSubset) : World Category EventSubset :=
  match mpscSend (w.payload self.event_tx) event with
  | Except.error _ => w
  | Except.ok ch => { w with payload := updFn w.payload self.event_tx ch }

end EventSender

/-- Append one value to a channel queue, leaving the liveness flag as it
is: the successful-case effect of `mpscSend`. -/
def enqueue {α : Type} (ch : Channel α) (v : α) : Channel α :=
  { ch with queue := ch.queue ++ [v] }

/-- The world after the payload enqueue of a successful step 1 of `send`:
only the payload channel bound to the dispatcher gains the event. -/
def payloadEnqueued {Category EventSubset : Type} (s : EventSender Category EventSubset)
    (e : EventSubset) (w : World Category EventSubset) : World Category EventSubset :=
  { w with payload := updFn w.payload s.event_tx (enqueue (w.payload s.event_tx) e) }

/-- The world after a successful step 2 of `send`: only the category
channel bound to the dispatcher gains the stored category value. -/
def categoryPublished {Category EventSubset : Type} (s : EventSender Category EventSubset)
    (w : World Category EventSubset) : World Category EventSubset :=
  { w with category :=
      updFn w.category s.event_category_tx (enqueue (w.category s.event_category_tx) s.event_category) }

section ConcreteInstances

/-- A concrete world where every channel is empty and every receiver is
alive. -/
def liveWorld : World Nat Nat :=
  { payload := fun _ => ⟨[], true⟩, category := fun _ => ⟨[], true⟩ }

/-- A concrete world where the payload receivers have been dropped while
the category receivers are alive. -/
def deadPayloadWorld : World Nat Nat :=
  { payload := fun _ => ⟨[], false⟩, category := fun _ => ⟨[], true⟩ }

/-- A concrete world where the category receivers have been dropped while
the payload receivers are alive. -/
def deadCategoryWorld : World Nat Nat :=
  { payload := fun _ => ⟨[], true⟩, category := fun _ => ⟨[], false⟩ }

/-- A concrete dispatcher: payload channel 0, category value 5, category
channel 0. -/
def sender0 : EventSender Nat Nat := EventSender.new 0 5 0

end ConcreteInstances

section Helpers

variable {Category EventSubset : Type}

/-- Helper: when the payload channel's receiver is gone, `send` returns
`EventSendError` carrying the event and leaves the world untouched. -/
theorem send_of_payload_dead (s : EventSender Category EventSubset)
    (e : EventSubset) (w : World Category EventSubset)
    (hp : (w.payload s.event_tx).receiver_alive = false) :
    s.send e w = (Except.error (EventSenderError.EventSendError ⟨e⟩), w) := by
  simp [EventSender.send, mpscSend, hp]

/-- Helper: when the payload receiver is alive but the category receiver
is gone, `send` enqueues the payload and returns `CategorySendError`
carrying the stored category value. -/
theorem send_of_category_dead (s : EventSender Category EventSubset)
    (e : EventSubset) (w : World Category EventSubset)
    (hp : (w.payload s.event_tx).receiver_alive = true)
    (hc : (w.category s.event_category_tx).receiver_alive = false) :
    s.send e w = (Except.error (EventSenderError.CategorySendError ⟨s.event_category⟩),
      payloadEnqueued s e w) := by
  simp [EventSender.send, mpscSend, payloadEnqueued, enqueue, hp, hc]

/-- Helper: when both receivers are alive, `send` enqueues the payload,
publishes the stored category and returns success. -/
theorem send_of_both_alive (s : EventSender Category EventSubset)
    (e : EventSubset) (w : World Category EventSubset)
    (hp : (w.payload s.event_tx).receiver_alive = true)
    (hc : (w.category s.event_category_tx).receiver_alive = true) :
    s.send e w = (Except.ok (), categoryPublished s (payloadEnqueued s e w)) := by
  simp [EventSender.send, mpscSend, payloadEnqueued, categoryPublished, enqueue,
    updFn, hp, hc]

/-- Helper: `send` succeeds exactly when both receivers are alive. -/
theorem send_ok_iff (s : EventSender Category EventSubset)
    (e : EventSubset) (w : World Category EventSubset) :
    (s.send e w).1 = Except.ok () ↔
      ((w.payload s.event_tx).receiver_alive = true ∧
       (w.category s.event_category_tx).receiver_alive = true) := by
  cases hp : (w.payload s.event_tx).receiver_alive
  · rw [send_of_payload_dead s e w hp]; simp
  · cases hc : (w.category s.event_category_tx).receiver_alive
    · rw [send_of_category_dead s e w hp hc]; simp
    · rw [send_of_both_alive s e w hp hc]; simp

/-- Helper: regardless of channel liveness, a `send` either leaves a
category queue unchanged or appends exactly the stored category value. -/
theorem send_category_queue_cases (s : EventSender Category EventSubset)
    (e : EventSubset) (w : World Category EventSubset) (i : Nat) :
    ((s.send e w).2.category i).queue = (w.category i).queue
  ∨ ((s.send e w).2.category i).queue = (w.category i).queue ++ [s.event_category] := by
  cases hp : (w.payload s.event_tx).receiver_alive
  · rw [send_of_payload_dead s e w hp]
    exact Or.inl rfl
  · cases hc : (w.category s.event_category_tx).receiver_alive
    · rw [send_of_category_dead s e w hp hc]
      exact Or.inl rfl
    · rw [send_of_both_alive s e w hp hc]
      by_cases hi : i = s.event_category_tx
      · subst hi
        exact Or.inr (by simp [categoryPublished, payloadEnqueued, enqueue, updFn])
      · exact Or.inl (by simp [categoryPublished, payloadEnqueued, enqueue, updFn, hi])

/-- Helper: enqueueing at one identifier grows every queue of the map by
at most one element. -/
theorem payloadEnqueued_queue_length_le (s : EventSender Category EventSubset)
    (e : EventSubset) (w : World Category EventSubset) (j : Nat) :
    ((payloadEnqueued s e w).payload j).queue.length ≤ (w.payload j).queue.length + 1 := by
  by_cases hj : j = s.event_tx <;> simp [payloadEnqueued, enqueue, updFn, hj]

/-- Helper: publishing the category at one identifier grows every
category queue of the map by at most one element. -/
theorem categoryPublished_queue_length_le (s : EventSender Category EventSubset)
    (w : World Category EventSubset) (j : Nat) :
    ((categoryPublished s w).category j).queue.length ≤ (w.category j).queue.length + 1 := by
  by_cases hj : j = s.event_category_tx <;> simp [categoryPublished, enqueue, updFn, hj]

end Helpers

section Claims

variable {Category EventSubset : Type}

open EventSender

/-- C1: `send` runs the two-step sequential algorithm.  If the payload
delivery fails it stops at once, returning `EventSendError` with the world
untouched (in particular the category channel is never attempted); if the
payload delivery succeeds but the category publication fails it returns
`CategorySendError` with only the payload enqueued; if both succeed it
returns success with both values enqueued. -/
theorem send_two_step_sequential (s : EventSender Category EventSubset)
    (e : EventSubset) (w : World Category EventSubset) :
    ((w.payload s.event_tx).receiver_alive = false →
      s.send e w = (Except.error (EventSenderError.EventSendError ⟨e⟩), w))
  ∧ ((w.payload s.event_tx).receiver_alive = true →
     (w.category s.event_category_tx).receiver_alive = false →
      s.send e w = (Except.error (EventSenderError.CategorySendError ⟨s.event_category⟩),
        payloadEnqueued s e w))
  ∧ ((w.payload s.event_tx).receiver_alive = true →
     (w.category s.event_category_tx).receiver_alive = true →
      s.send e w = (Except.ok (), categoryPublished s (payloadEnqueued s e w))) :=
  ⟨send_of_payload_dead s e w, send_of_category_dead s e w, send_of_both_alive s e w⟩

/-- Witness for C1: a concrete send in a world where both receivers are
alive, hitting the success branch. -/
theorem send_two_step_sequential_witness :
    sender0.send 7 liveWorld = (Except.ok (), categoryPublished sender0 (payloadEnqueued sender0 7 liveWorld)) :=
  (send_two_step_sequential sender0 7 liveWorld).2.2 rfl rfl

/-- C2: a dispatcher constructed with category value c never publishes
anything other than c.  Cloning preserves the stored category, the fields
of a dispatcher are never rebound (clone is the only operation producing a
dispatcher and it returns an identical one), and after any `send` every
category queue is either unchanged or extended by exactly [c]. -/
theorem send_publishes_only_bound_category (tx ctx : Nat) (c : Category)
    (e : EventSubset) (w : World Category EventSubset) (i : Nat) :
    (EventSender.clone (EventSender.new tx c ctx : EventSender Category EventSubset)) =
      EventSender.new tx c ctx
  ∧ ((((EventSender.new tx c ctx : EventSender Category EventSubset).send e w).2.category i).queue
        = (w.category i).queue
    ∨ (((EventSender.new tx c ctx : EventSender Category EventSubset).send e w).2.category i).queue
        = (w.category i).queue ++ [c]) :=
  ⟨rfl, send_category_queue_cases (EventSender.new tx c ctx) e w i⟩

/-- C3: if the payload channel's receiver has been dropped, `send e`
returns an `EventSendError` whose carried value is exactly e, and nothing
is enqueued anywhere. -/
theorem send_payload_dead_returns_event (s : EventSender Category EventSubset)
    (e : EventSubset) (w : World Category EventSubset)
    (hp : (w.payload s.event_tx).receiver_alive = false) :
    s.send e w = (Except.error (EventSenderError.EventSendError ⟨e⟩), w) :=
  send_of_payload_dead s e w hp

/-- Witness for C3: a concrete send into a world whose payload receiver is
dropped returns the supplied event inside the error. -/
theorem send_payload_dead_returns_event_witness :
    sender0.send 7 deadPayloadWorld =
      (Except.error (EventSenderError.EventSendError ⟨7⟩), deadPayloadWorld) :=
  send_payload_dead_returns_event sender0 7 deadPayloadWorld rfl

/-- C4: if the category receiver is dropped but the payload receiver is
alive, `send e` still enqueues e on the payload channel and returns a
`CategorySendError` carrying the stored category value; moreover, in any
world whatsoever, a `CategorySendError` result implies the payload was
enqueued. -/
theorem send_category_dead_payload_delivered (s : EventSender Category EventSubset)
    (e : EventSubset) (w : World Category EventSubset)
    (hp : (w.payload s.event_tx).receiver_alive = true)
    (hc : (w.category s.event_category_tx).receiver_alive = false) :
    (s.send e w = (Except.error (EventSenderError.CategorySendError ⟨s.event_category⟩),
        payloadEnqueued s e w)
      ∧ ((s.send e w).2.payload s.event_tx).queue = (w.payload s.event_tx).queue ++ [e])
  ∧ ∀ (w2 : World Category EventSubset) (err : SendError Category),
      (s.send e w2).1 = Except.error (EventSenderError.CategorySendError err) →
      ((s.send e w2).2.payload s.event_tx).queue = (w2.payload s.event_tx).queue ++ [e] := by
  constructor
  · constructor
    · exact send_of_category_dead s e w hp hc
    · rw [send_of_category_dead s e w hp hc]
      simp [payloadEnqueued, enqueue, updFn]
  · intro w2 err herr
    cases hp2 : (w2.payload s.event_tx).receiver_alive
    · rw [send_of_payload_dead s e w2 hp2] at herr
      exact absurd herr (by simp)
    · cases hc2 : (w2.category s.event_category_tx).receiver_alive
      · rw [send_of_category_dead s e w2 hp2 hc2]
        simp [payloadEnqueued, enqueue, updFn]
      · rw [send_of_both_alive s e w2 hp2 hc2] at herr
        exact absurd herr (by simp)

/-- Witness for C4: a concrete send into a world whose category receiver
is dropped still delivers the payload and echoes the category value 5 in
the error. -/
theorem send_category_dead_payload_delivered_witness :
    sender0.send 7 deadCategoryWorld =
      (Except.error (EventSenderError.CategorySendError ⟨5⟩),
        payloadEnqueued sender0 7 deadCategoryWorld) :=
  ((send_category_dead_payload_delivered sender0 7 deadCategoryWorld rfl rfl).1).1

/-- C5: a successful `send` performs exactly two enqueues: the bound
payload channel gains e, the bound category channel gains the stored
category, every other channel of either kind is untouched, and no
liveness flag changes anywhere. -/
theorem send_success_exactly_two_enqueues (s : EventSender Category EventSubset)
    (e : EventSubset) (w : World Category EventSubset)
    (h : (s.send e w).1 = Except.ok ()) :
    ((s.send e w).2.payload s.event_tx).queue = (w.payload s.event_tx).queue ++ [e]
  ∧ ((s.send e w).2.category s.event_category_tx).queue
      = (w.category s.event_category_tx).queue ++ [s.event_category]
  ∧ (∀ j, j ≠ s.event_tx → (s.send e w).2.payload j = w.payload j)
  ∧ (∀ j, j ≠ s.event_category_tx → (s.send e w).2.category j = w.category j)
  ∧ (∀ j, ((s.send e w).2.payload j).receiver_alive = (w.payload j).receiver_alive)
  ∧ (∀ j, ((s.send e w).2.category j).receiver_alive = (w.category j).receiver_alive) := by
  obtain ⟨hp, hc⟩ := (send_ok_iff s e w).mp h
  rw [send_of_both_alive s e w hp hc]
  refine ⟨by simp [categoryPublished, payloadEnqueued, enqueue, updFn],
    by simp [categoryPublished, payloadEnqueued, enqueue, updFn],
    fun j hj => by simp [categoryPublished, payloadEnqueued, enqueue, updFn, hj],
    fun j hj => by simp [categoryPublished, payloadEnqueued, enqueue, updFn, hj],
    fun j => ?_, fun j => ?_⟩
  · by_cases hj : j = s.event_tx <;>
      simp [categoryPublished, payloadEnqueued, enqueue, updFn, hj]
  · by_cases hj : j = s.event_category_tx <;>
      simp [categoryPublished, payloadEnqueued, enqueue, updFn, hj]

/-- Witness for C5: the concrete successful send appends 7 to payload
channel 0 and 5 to category channel 0, while leaving channel 1 of each
kind and the liveness flag of channel 0 untouched. -/
theorem send_success_exactly_two_enqueues_witness :
    ((sender0.send 7 liveWorld).2.payload 0).queue = [] ++ [7]
  ∧ ((sender0.send 7 liveWorld).2.category 0).queue = [] ++ [5]
  ∧ (sender0.send 7 liveWorld).2.payload 1 = liveWorld.payload 1
  ∧ (sender0.send 7 liveWorld).2.category 1 = liveWorld.category 1
  ∧ ((sender0.send 7 liveWorld).2.payload 0).receiver_alive = (liveWorld.payload 0).receiver_alive
  ∧ ((sender0.send 7 liveWorld).2.category 0).receiver_alive = (liveWorld.category 0).receiver_alive :=
  ⟨(send_success_exactly_two_enqueues sender0 7 liveWorld rfl).1,
   (send_success_exactly_two_enqueues sender0 7 liveWorld rfl).2.1,
   (send_success_exactly_two_enqueues sender0 7 liveWorld rfl).2.2.1 1 (by decide),
   (send_success_exactly_two_enqueues sender0 7 liveWorld rfl).2.2.2.1 1 (by decide),
   (send_success_exactly_two_enqueues sender0 7 liveWorld rfl).2.2.2.2.1 0,
   (send_success_exactly_two_enqueues sender0 7 liveWorld rfl).2.2.2.2.2 0⟩

/-- C6: a clone is the same dispatcher value (same payload-channel handle,
same category, same category-channel handle), so sending through a clone
or a clone of a clone is observationally identical to sending through the
original, on any world. -/
theorem clone_send_observationally_equivalent (s : EventSender Category EventSubset)
    (e : EventSubset) (w : World Category EventSubset) :
    EventSender.clone s = s
  ∧ (EventSender.clone s).send e w = s.send e w
  ∧ (EventSender.clone (EventSender.clone s)).send e w = s.send e w :=
  ⟨rfl, rfl, rfl⟩

/-- C7: construction is total, validates nothing, and has no effect other
than storing the three inputs unchanged in the three fields. -/
theorem new_stores_inputs_unchanged (tx ctx : Nat) (c : Category) :
    (EventSender.new tx c ctx : EventSender Category EventSubset).event_tx = tx
  ∧ (EventSender.new tx c ctx : EventSender Category EventSubset).event_category = c
  ∧ (EventSender.new tx c ctx : EventSender Category EventSubset).event_category_tx = ctx :=
  ⟨rfl, rfl, rfl⟩

/-- C8: every failure of `send` is surfaced synchronously as its return
value, with success exactly when both receivers are alive, and no channel
operation is ever retried: every queue in the world grows by at most one
element during a single call. -/
theorem send_failure_synchronous_no_retry (s : EventSender Category EventSubset)
    (e : EventSubset) (w : World Category EventSubset) :
    ((s.send e w).1 = Except.ok () ↔
      ((w.payload s.event_tx).receiver_alive = true ∧
       (w.category s.event_category_tx).receiver_alive = true))
  ∧ (∀ j, ((s.send e w).2.payload j).queue.length ≤ (w.payload j).queue.length + 1)
  ∧ (∀ j, ((s.send e w).2.category j).queue.length ≤ (w.category j).queue.length + 1) := by
  refine ⟨send_ok_iff s e w, fun j => ?_, fun j => ?_⟩
  · cases hp : (w.payload s.event_tx).receiver_alive
    · rw [send_of_payload_dead s e w hp]
      exact Nat.le_succ _
    · cases hc : (w.category s.event_category_tx).receiver_alive
      · rw [send_of_category_dead s e w hp hc]
        exact payloadEnqueued_queue_length_le s e w j
      · rw [send_of_both_alive s e w hp hc]
        exact payloadEnqueued_queue_length_le s e w j
  · cases hp : (w.payload s.event_tx).receiver_alive
    · rw [send_of_payload_dead s e w hp]
      exact Nat.le_succ _
    · cases hc : (w.category s.event_category_tx).receiver_alive
      · rw [send_of_category_dead s e w hp hc]
        exact Nat.le_succ _
      · rw [send_of_both_alive s e w hp hc]
        exact categoryPublished_queue_length_le s (payloadEnqueued s e w) j

/-- C9: for a single send of event e starting from empty bound channels,
in every state arising before, between, or after the two steps of `send`,
a consumer that reads a category value from the bound category channel
reads the stored category and a subsequent non-blocking read of the bound
payload channel observes exactly e, never a different event. -/
theorem single_send_consumer_never_observes_wrong_event
    (s : EventSender Category EventSubset) (e : EventSubset) (w : World Category EventSubset)
    (hpq : (w.payload s.event_tx).queue = [])
    (hcq : (w.category s.event_category_tx).queue = [])
    (hpa : (w.payload s.event_tx).receiver_alive = true)
    (hca : (w.category s.event_category_tx).receiver_alive = true) :
    ∀ w2 ∈ [w, EventSender.sendMid s e w, (s.send e w).2], ∀ x,
      (tryRecv (w2.category s.event_category_tx)).1 = some x →
      x = s.event_category ∧ (tryRecv (w2.payload s.event_tx)).1 = some e := by
  intro w2 hw2 x hx
  simp only [List.mem_cons, List.not_mem_nil, or_false] at hw2
  rcases hw2 with h | h | h
  · subst h
    simp [tryRecv, hcq] at hx
  · subst h
    simp [EventSender.sendMid, mpscSend, hpa, tryRecv, hcq] at hx
  · subst h
    rw [send_of_both_alive s e w hpa hca] at hx ⊢
    refine ⟨?_, ?_⟩
    · simp [categoryPublished, payloadEnqueued, enqueue, updFn, tryRecv, hcq] at hx
      exact hx.symm
    · simp [categoryPublished, payloadEnqueued, enqueue, updFn, tryRecv, hpq]

/-- Witness for C9: after the concrete send of event 7, the consumer reads
category 5 and the non-blocking payload read observes 7. -/
theorem single_send_consumer_never_observes_wrong_event_witness :
    5 = sender0.event_category ∧
      (tryRecv ((sender0.send 7 liveWorld).2.payload sender0.event_tx)).1 = some 7 :=
  single_send_consumer_never_observes_wrong_event sender0 7 liveWorld rfl rfl rfl rfl
    ((sender0.send 7 liveWorld).2)
    (List.mem_cons_of_mem _ (List.mem_cons_of_mem _ (List.mem_cons_self _ _)))
    5 rfl

/-- C10: `send` borrows the dispatcher immutably and publishes a copy of
the stored category, so after a first send (whatever its outcome) the very
same dispatcher value is still usable: a second send through it succeeds
whenever both receivers are then alive, again targeting the same two bound
channels, and again can only publish the same stored category. -/
theorem send_leaves_dispatcher_reusable (s : EventSender Category EventSubset)
    (e1 e2 : EventSubset) (w : World Category EventSubset) :
    ((((s.send e1 w).2).payload s.event_tx).receiver_alive = true →
     (((s.send e1 w).2).category s.event_category_tx).receiver_alive = true →
      s.send e2 (s.send e1 w).2 =
        (Except.ok (), categoryPublished s (payloadEnqueued s e2 (s.send e1 w).2)))
  ∧ ∀ i, (((s.send e2 (s.send e1 w).2).2).category i).queue = (((s.send e1 w).2).category i).queue
       ∨ (((s.send e2 (s.send e1 w).2).2).category i).queue
           = (((s.send e1 w).2).category i).queue ++ [s.event_category] :=
  ⟨fun hp hc => send_of_both_alive s e2 (s.send e1 w).2 hp hc,
   fun i => send_category_queue_cases s e2 (s.send e1 w).2 i⟩

/-- Witness for C10: the dispatcher used for the first concrete send is
reused unchanged for a second send, which succeeds. -/
theorem send_leaves_dispatcher_reusable_witness :
    sender0.send 8 (sender0.send 7 liveWorld).2 =
      (Except.ok (), categoryPublished sender0 (payloadEnqueued sender0 8 (sender0.send 7 liveWorld).2)) :=
  (send_leaves_dispatcher_reusable sender0 7 8 liveWorld).1 rfl rfl

end Claims
